/-
Verification of the plane-to-teams synchronisation core.

Shallow embedding of the repository's `plane_client.py` data model,
`teams_formatter.py` selection/formatting transform and
`sync_service.py` orchestration, with theorems checking the design
document against the code.
-/
import Mathlib

set_option linter.unusedVariables false

/-! ### Data model (from `plane_client.py`) -/

/-- Embeds the dataclass `PlaneState` of `plane_client.py` (id, name, color,
sequence, group, default). -/
structure PlaneState where
  id : String
  name : String
  color : String
  sequence : Int
  group : String
  default : Bool
deriving DecidableEq, Repr

/-- Embeds the dataclass `PlaneIssue` of `plane_client.py`. -/
structure PlaneIssue where
  id : String
  name : String
  description_html : Option String
  priority : String
  state : String
  created_at : String
  updated_at : String
  estimate_point : Option Int
  start_date : Option String
  target_date : Option String
  completed_at : Option String
  sequence_id : Int
  project_id : String
  labels : List String
  assignees : List String
deriving DecidableEq, Repr

/-! ### Formatter (from `teams_formatter.py`) -/

/-- The module-level dict `STATE_ORDER` of `teams_formatter.py`: the three
hard-coded state identifiers mapped to their sort order
(En cours = 0, A faire = 1, Backlog = 2). -/
def STATE_ORDER : List (String × Nat) :=
  [("daaf8056-e88d-40ba-b527-d58f3e518059", 0),
   ("9ce312cc-0018-4864-9867-064939dda809", 1),
   ("318803e3-f0ce-4dbf-b0b4-beb1cfba9e81", 2)]

/-- Python `dict.get(k, dflt)` on a literal string-keyed dict, embedded as an
association-list lookup with a default. -/
def dictGet (d : List (String × Nat)) (k : String) (dflt : Nat) : Nat :=
  match d.find? (fun p => p.1 == k) with
  | some p => p.2
  | none => dflt

/-- The inline priority dict of the sort key in `format_issues`
(urgent 0, high 1, medium 2, low 3). -/
def PRIORITY_ORDER : List (String × Nat) :=
  [("urgent", 0), ("high", 1), ("medium", 2), ("low", 3)]

/-- The primary sort key: `{...}.get(x.priority, 4)` in `format_issues`. -/
def prio_rank (p : String) : Nat := dictGet PRIORITY_ORDER p 4

/-- The secondary sort key: `STATE_ORDER.get(x.state, 99)` in `format_issues`. -/
def state_rank (s : String) : Nat := dictGet STATE_ORDER s 99

/-- `STATE_ORDER.keys()`, used by the filter in `format_issues`. -/
def stateOrderKeys : List String := STATE_ORDER.map Prod.fst

/-- The full sort key tuple `(priority rank, state rank)` of `format_issues`. -/
def pykey (i : PlaneIssue) : Nat × Nat := (prio_rank i.priority, state_rank i.state)

/-- Lexicographic order on sort-key tuples: Python compares key tuples
componentwise. -/
def keyLe (a b : Nat × Nat) : Prop := a.1 < b.1 ∨ (a.1 = b.1 ∧ a.2 ≤ b.2)

instance keyLe.instDecidable (a b : Nat × Nat) : Decidable (keyLe a b) :=
  inferInstanceAs (Decidable (_ ∨ _))

/-- The comparison used by `filtered_issues.sort(key=...)`: key of `x` is at
most key of `y`. -/
def sortRel (x y : PlaneIssue) : Prop := keyLe (pykey x) (pykey y)

instance sortRel.instDecidable (x y : PlaneIssue) : Decidable (sortRel x y) :=
  inferInstanceAs (Decidable (keyLe _ _))

instance : IsTotal PlaneIssue sortRel :=
  ⟨fun x y => by
    unfold sortRel keyLe
    rcases Nat.lt_trichotomy (pykey x).1 (pykey y).1 with h | h | h
    · exact Or.inl (Or.inl h)
    · rcases Nat.le_total (pykey x).2 (pykey y).2 with h2 | h2
      · exact Or.inl (Or.inr ⟨h, h2⟩)
      · exact Or.inr (Or.inr ⟨h.symm, h2⟩)
    · exact Or.inr (Or.inl h)⟩

instance : IsTrans PlaneIssue sortRel :=
  ⟨fun x y z hxy hyz => by
    unfold sortRel keyLe at hxy hyz ⊢
    omega⟩

/-- Embeds the dataclass `TeamsMessage` of `teams_formatter.py`: a title and a
list of `(priority, name, state, url)` tuples. -/
structure TeamsMessage where
  title : String
  items : List (String × String × String × String)
deriving DecidableEq, Repr

/-- The filter step of `format_issues`: keep issues whose `state` is one of the
hard-coded `STATE_ORDER` keys. -/
def filtered_issues (issues : List PlaneIssue) : List PlaneIssue :=
  issues.filter (fun i => stateOrderKeys.contains i.state)

/-- The sort step `filtered_issues.sort(key=...)` of `format_issues`.
Python's `list.sort` is stable and ascending in the key; a stable sort by a
key drawn from a linear order is a uniquely determined function of the input,
so the (stable) insertion sort computes the same list. -/
def sorted_issues (issues : List PlaneIssue) : List PlaneIssue :=
  List.insertionSort sortRel (filtered_issues issues)

/-- The truncation step `filtered_issues[:10]` of `format_issues`. -/
def top_issues (issues : List PlaneIssue) : List PlaneIssue :=
  (sorted_issues issues).take 10

/-- The deep-link URL interpolated for each retained issue in `format_issues`. -/
def issue_url (i : PlaneIssue) : String :=
  "https://plane.julienfroidefond.com/workspace/jfr/projects/b19ea686-c7fa-467d-92b9-1e6dcbc584b8/issues/"
    ++ i.id

/-- Python `str.upper()` on the ASCII priority strings, embedded
character by character so that it evaluates by kernel reduction. -/
def py_upper (s : String) : String := String.mk (s.data.map Char.toUpper)

/-- One entry of the items list built by `format_issues`:
`(issue.priority.upper(), issue.name, issue.state, url)`. -/
def item_of (i : PlaneIssue) : String × String × String × String :=
  (py_upper i.priority, i.name, i.state, issue_url i)

/-- Embeds `format_issues` of `teams_formatter.py` (its single parameter is the
issue list): filter by hard-coded state ids, stable-sort by
(priority rank, state rank), truncate to 10, map to item tuples. -/
def format_issues (issues : List PlaneIssue) : TeamsMessage :=
  { title := "Top Priority Plane Issues"
    items := (top_issues issues).map item_of }

/-! ### Sync service (from `sync_service.py`) -/

/-- A Python `datetime` as used by `_should_sync` and `_update_state`:
`date` is the calendar date (as `datetime.date()`, an ordinal day) and
`time` the time-of-day (as `datetime.time()`, in any fixed linearly
ordered unit); the notification hour is a time-of-day value on the same
scale. -/
structure PyDateTime where
  date : Nat
  time : Nat
deriving DecidableEq, Repr

/-- The persisted sync record (the `state` dict of `SyncService`, see
`_load_state`): keys `last_sync`, `last_sync_status`, `last_issues`,
`error_count`, `last_error`. -/
structure SyncState where
  last_sync : Option PyDateTime
  last_sync_status : String
  last_issues : List String
  error_count : Nat
  last_error : Option String
deriving DecidableEq, Repr

/-- The default state built by `_load_state` when no file exists. -/
def initial_state : SyncState :=
  { last_sync := none
    last_sync_status := "success"
    last_issues := []
    error_count := 0
    last_error := none }

/-- Embeds `SyncService._should_sync`: due when there is no previous sync;
when the previous sync is on an earlier date and the notification hour has
passed; or when it is on the same date, the notification hour has passed and
the previous sync was before the notification hour. -/
def should_sync (notification_hour : Nat) (now : PyDateTime) (st : SyncState) : Bool :=
  match st.last_sync with
  | none => true
  | some last =>
    if last.date < now.date ∧ notification_hour ≤ now.time then true
    else if last.date = now.date ∧ notification_hour ≤ now.time ∧
        last.time < notification_hour then true
    else false

/-- Embeds `SyncService._update_state`: stamps `last_sync` with now and the
status; on success resets the error bookkeeping and (only when the issue list
is non-empty, the Python truthiness test `if issues:`) records the issue ids;
on failure increments `error_count` only while strictly below `max_retries`
and records the error message. -/
def update_state (max_retries : Nat) (now : PyDateTime) (success : Bool)
    (error : Option String) (issues : Option (List PlaneIssue)) (st : SyncState) : SyncState :=
  let st1 : SyncState :=
    { st with
      last_sync := some now
      last_sync_status := if success then "success" else "error" }
  if success then
    let st2 : SyncState := { st1 with error_count := 0, last_error := none }
    match issues with
    | some is => if is.isEmpty then st2 else { st2 with last_issues := is.map (fun i => i.id) }
    | none => st2
  else
    { st1 with
      error_count :=
        if st1.error_count < max_retries then st1.error_count + 1 else st1.error_count
      last_error := error }

/-- The collaborators of one `sync` attempt: the outcomes of
`plane_client.get_states()`, `plane_client.get_issues()` and
`teams_client.send_message(...)`; a raised exception is an `error` value,
caught by the `except` clause of `sync`. -/
structure SyncEnv where
  get_states : Except String (List PlaneState)
  get_issues : Except String (List PlaneIssue)
  send_message : TeamsMessage → Except String Unit

/-- The number of parameters of `format_issues` as defined in
`teams_formatter.py` (a single parameter, `issues`). -/
def format_issues_paramCount : Nat := 1

/-- Embeds the call expression `format_issues(issues, states)` in
`SyncService.sync`. Python checks the argument count against the callee's
parameter count at call time: two positional arguments against one parameter
raise `TypeError`, whose message is the string below; were the counts to
agree, the call would reduce to the function applied to its arguments. -/
def call_format_issues (issues : List PlaneIssue) (_states : List PlaneState) :
    Except String TeamsMessage :=
  if format_issues_paramCount = 2 then
    Except.ok (format_issues issues)
  else
    Except.error "format_issues() takes 1 positional argument but 2 were given"

/-- The observable outcome of one `SyncService.sync` call: the in-memory
state after the call, whether `_save_state` ran (every `_update_state` call
ends in `_save_state`), which collaborators were invoked, the message sent to
Teams if any, and whether `plane_client.close()` ran (the `finally` clause). -/
structure SyncOutcome where
  state : SyncState
  saved : Bool
  fetched_states : Bool
  fetched_issues : Bool
  sent : Option TeamsMessage
  closed : Bool
deriving DecidableEq, Repr

/-- Embeds `SyncService.sync`. Note that the body never consults the `force`
parameter and never calls `_should_sync`: every call fetches the states. The
empty-states branch returns without touching or saving the state; every other
branch ends in `_update_state` (hence `_save_state`); all branches run the
`finally` clause closing the Plane client. -/
def sync (max_retries : Nat) (env : SyncEnv) (now : PyDateTime) (force : Bool)
    (st : SyncState) : SyncOutcome :=
  match env.get_states with
  | Except.error e =>
    { state := update_state max_retries now false (some e) none st
      saved := true, fetched_states := true, fetched_issues := false
      sent := none, closed := true }
  | Except.ok states =>
    if states.isEmpty then
      { state := st
        saved := false, fetched_states := true, fetched_issues := false
        sent := none, closed := true }
    else
      match env.get_issues with
      | Except.error e =>
        { state := update_state max_retries now false (some e) none st
          saved := true, fetched_states := true, fetched_issues := true
          sent := none, closed := true }
      | Except.ok issues =>
        match call_format_issues issues states with
        | Except.error e =>
          { state := update_state max_retries now false (some e) none st
            saved := true, fetched_states := true, fetched_issues := true
            sent := none, closed := true }
        | Except.ok message =>
          match env.send_message message with
          | Except.error e =>
            { state := update_state max_retries now false (some e) none st
              saved := true, fetched_states := true, fetched_issues := true
              sent := none, closed := true }
          | Except.ok _ =>
            { state := update_state max_retries now true none (some issues) st
              saved := true, fetched_states := true, fetched_issues := true
              sent := some message, closed := true }

/-! ### Spec-side comparison definitions -/

/-- Resolution of a state id in the fetched state set, as the design document
describes it (its group classification). -/
def group_of (states : List PlaneState) (sid : String) : Option String :=
  (states.find? (fun s => s.id == sid)).map (fun s => s.group)

/-- Resolution of a state id to its `sequence` value in the fetched state
set, as the design document describes the secondary sort key. -/
def seq_of (states : List PlaneState) (sid : String) : Int :=
  match states.find? (fun s => s.id == sid) with
  | some s => s.sequence
  | none => 0

/-- Modelled from the spec: the consecutive-entry ordering that the design
document claims for the selection transform, namely priority rank ascending
and, at equal rank, the referenced state's `sequence` value ascending. -/
def spec_order_ok (states : List PlaneState) : List PlaneIssue → Bool
  | a :: b :: rest =>
    (decide (prio_rank a.priority ≤ prio_rank b.priority) &&
      (!(prio_rank a.priority == prio_rank b.priority) ||
        decide (seq_of states a.state ≤ seq_of states b.state))) &&
    spec_order_ok states (b :: rest)
  | _ => true

/-! ### Helper lemmas on the stable sort -/

/-- Inserting an element whose key misses `k` leaves the `k`-key class of the
list unchanged, and inserting one whose key is `k` prepends it to that class:
the skipped elements sit strictly above the inserted key. -/
theorem filter_orderedInsert (x : PlaneIssue) (l : List PlaneIssue) (k : Nat × Nat) :
    (List.orderedInsert sortRel x l).filter (fun z => pykey z == k) =
      if pykey x == k then x :: l.filter (fun z => pykey z == k)
      else l.filter (fun z => pykey z == k) := by
  induction l with
  | nil =>
    simp only [List.orderedInsert_nil, List.filter_cons, List.filter_nil]
  | cons y ys ih =>
    by_cases hr : sortRel x y
    · simp only [List.orderedInsert, if_pos hr, List.filter_cons]
    · have hne : pykey x ≠ pykey y := by
        intro he
        exact hr (Or.inr ⟨congrArg Prod.fst he, Nat.le_of_eq (congrArg Prod.snd he)⟩)
      simp only [List.orderedInsert, if_neg hr, List.filter_cons, ih]
      by_cases hx : (pykey x == k) = true
      · have hy : (pykey y == k) = false := by
          apply beq_eq_false_iff_ne.mpr
          intro he
          exact hne ((beq_iff_eq.mp hx).trans he.symm)
        simp [hx, hy]
      · by_cases hy : (pykey y == k) = true <;> simp [hx, hy]

/-- Stability of the embedded sort: for every key value, the elements of that
key class appear in the sorted list exactly in their original order. -/
theorem filter_insertionSort (l : List PlaneIssue) (k : Nat × Nat) :
    (List.insertionSort sortRel l).filter (fun z => pykey z == k) =
      l.filter (fun z => pykey z == k) := by
  induction l with
  | nil => rfl
  | cons a l ih =>
    rw [List.insertionSort, filter_orderedInsert, List.filter_cons]
    by_cases h : (pykey a == k) = true <;> simp [h, ih]

/-! ### Concrete inputs used by witnesses and counterexamples -/

/-- An issue literal with the fields that the transform does not inspect held
fixed. -/
def mkIssue (id name priority state : String) : PlaneIssue :=
  { id := id, name := name, description_html := none, priority := priority, state := state
    created_at := "2024-01-29T00:00:00", updated_at := "2024-01-29T00:00:00"
    estimate_point := none, start_date := none, target_date := none, completed_at := none
    sequence_id := 1, project_id := "b19ea686-c7fa-467d-92b9-1e6dcbc584b8"
    labels := [], assignees := [] }

def uuidEnCours : String := "daaf8056-e88d-40ba-b527-d58f3e518059"

def uuidAFaire : String := "9ce312cc-0018-4864-9867-064939dda809"

/-- Issue in the hard-coded "A faire" state, priority high. -/
def issueA : PlaneIssue := mkIssue "a1" "Issue A" "high" uuidAFaire

/-- Issue in the hard-coded "En cours" state, priority high. -/
def issueB : PlaneIssue := mkIssue "b1" "Issue B" "high" uuidEnCours

/-- A fetched state set in which "En cours" carries a larger `sequence` than
"A faire". -/
def statesSeq : List PlaneState :=
  [{ id := uuidEnCours, name := "En cours", color := "#ff0000", sequence := 5
     group := "started", default := false },
   { id := uuidAFaire, name := "A faire", color := "#00ff00", sequence := 1
     group := "unstarted", default := false }]

/-- A fetched state set in which the hard-coded "En cours" id is classified in
group "completed". -/
def statesDone : List PlaneState :=
  [{ id := uuidEnCours, name := "En cours", color := "#ff0000", sequence := 1
     group := "completed", default := false }]

/-- A nominal "En cours" state record. -/
def stateEnCours : PlaneState :=
  { id := uuidEnCours, name := "En cours", color := "#ff0000", sequence := 1
    group := "started", default := false }

/-- A persisted record whose last sync is today at time 9, after the
notification hour 8: not due. -/
def stNotDue : SyncState :=
  { last_sync := some { date := 739280, time := 9 }
    last_sync_status := "success"
    last_issues := ["old1"]
    error_count := 0
    last_error := none }

/-- A clock reading on the same date as `stNotDue`'s last sync, at time 10. -/
def nowC1 : PyDateTime := { date := 739280, time := 10 }

/-- Collaborators that all succeed, returning one state and one issue. -/
def envNominal : SyncEnv :=
  { get_states := Except.ok [stateEnCours]
    get_issues := Except.ok [issueB]
    send_message := fun _ => Except.ok () }

/-- Collaborators whose issue fetch raises a transport error. -/
def envIssueError : SyncEnv :=
  { get_states := Except.ok [stateEnCours]
    get_issues := Except.error "Connection refused"
    send_message := fun _ => Except.ok () }

/-- Collaborators whose state fetch returns an empty list. -/
def envEmptyStates : SyncEnv :=
  { get_states := Except.ok []
    get_issues := Except.ok [issueB]
    send_message := fun _ => Except.ok () }

/-! ### Claim theorems -/

/-- C10: `_should_sync` returns true exactly when there is no previous sync;
or the previous sync is on a strictly earlier date and now's time-of-day has
reached the notification hour; or it is on the same date, now's time-of-day
has reached the notification hour and the previous sync's time-of-day was
before it; and false in every other case. -/
theorem should_sync_characterisation (nh : Nat) (now : PyDateTime) (st : SyncState) :
    should_sync nh now st = true ↔
      st.last_sync = none ∨
        ∃ last, st.last_sync = some last ∧
          ((last.date < now.date ∧ nh ≤ now.time) ∨
           (last.date = now.date ∧ nh ≤ now.time ∧ last.time < nh)) := by
  cases hls : st.last_sync with
  | none => simp [should_sync, hls]
  | some last =>
    simp only [should_sync, hls]
    split_ifs with h1 h2 <;> simp_all

/-- C5: the items list of the payload produced by `format_issues` has length
at most 10, whatever the input issue list. -/
theorem format_issues_items_length_le_ten (issues : List PlaneIssue) :
    (format_issues issues).items.length ≤ 10 := by
  simp only [format_issues, top_issues, List.length_map, List.length_take]
  omega

/-- C3 (counterexample): with a fetched state set classifying the hard-coded
"En cours" id in group "completed", `format_issues` still retains an issue in
that state, so the payload contains an entry whose referenced state's group is
outside the set claimed by the design document. -/
theorem format_issues_completed_group_retained :
    group_of statesDone issueB.state = some "completed" ∧
    (["backlog", "unstarted", "started"].contains "completed") = false ∧
    (format_issues [issueB]).items.map (fun it => it.2.2.1) = [issueB.state] := by
  refine ⟨rfl, rfl, ?_⟩
  rfl

/-- C3 (amended): `format_issues` ignores the fetched states entirely; every
entry of the payload references one of the three hard-coded `STATE_ORDER`
identifiers, so issues in any other state — known or unknown — are excluded
(and the transform is a total function, it cannot raise). -/
theorem format_issues_only_hardcoded_states (issues : List PlaneIssue) :
    ∀ it ∈ (format_issues issues).items, it.2.2.1 ∈ stateOrderKeys := by
  intro it hit
  simp only [format_issues, List.mem_map] at hit
  obtain ⟨i, hi, rfl⟩ := hit
  simp only [top_issues] at hi
  have h1 : i ∈ sorted_issues issues := List.mem_of_mem_take hi
  simp only [sorted_issues] at h1
  have h2 : i ∈ filtered_issues issues := (List.mem_insertionSort sortRel).mp h1
  rw [filtered_issues, List.mem_filter] at h2
  simp only [item_of]
  simpa using h2.2

/-- C3 (amended) witness at a concrete input. -/
theorem format_issues_only_hardcoded_states_witness :
    (item_of issueB).2.2.1 ∈ stateOrderKeys :=
  format_issues_only_hardcoded_states [issueB] (item_of issueB)
    (List.mem_of_elem_eq_true (by rfl))

/-- C4 (counterexample): on two equal-priority issues whose hard-coded state
order disagrees with the fetched states' `sequence` values, the output of the
transform is not sorted by the referenced state's `sequence`: the "En cours"
issue (sequence 5) precedes the "A faire" issue (sequence 1). -/
theorem format_issues_not_sorted_by_state_sequence :
    top_issues [issueA, issueB] = [issueB, issueA] ∧
    spec_order_ok statesSeq (top_issues [issueA, issueB]) = false := by
  refine ⟨rfl, ?_⟩
  rfl

/-- C4 (amended): the output of the transform is sorted by the composite key
whose primary component is the priority rank (urgent 0, high 1, medium 2,
low 3, anything else 4) and whose secondary component is the hard-coded
`STATE_ORDER` rank of the issue's state id (En cours 0, A faire 1, Backlog 2;
the fetched state's `sequence` plays no role); remaining ties preserve the
original fetch order (the per-key classes of the sorted list are exactly
those of the filtered input, in order), and the payload is the first 10
entries of that sorted list. -/
theorem format_issues_sort_characterisation (issues : List PlaneIssue) :
    List.Pairwise sortRel (top_issues issues) ∧
    (∀ k : Nat × Nat,
      (sorted_issues issues).filter (fun z => pykey z == k) =
        (filtered_issues issues).filter (fun z => pykey z == k)) ∧
    top_issues issues = (sorted_issues issues).take 10 ∧
    (format_issues issues).items = (top_issues issues).map item_of := by
  refine ⟨?_, fun k => filter_insertionSort (filtered_issues issues) k, rfl, rfl⟩
  exact List.Pairwise.sublist (List.take_sublist 10 (sorted_issues issues))
    (List.sorted_insertionSort sortRel (filtered_issues issues))

/-- The `error_count` field written by a failing `_update_state`. -/
theorem update_state_fail_error_count (mr : Nat) (now : PyDateTime) (error : Option String)
    (issues : Option (List PlaneIssue)) (st : SyncState) :
    (update_state mr now false error issues st).error_count =
      if st.error_count < mr then st.error_count + 1 else st.error_count := by
  simp [update_state]

/-- The `error_count` field written by a successful `_update_state`. -/
theorem update_state_succ_error_count (mr : Nat) (now : PyDateTime) (error : Option String)
    (issues : Option (List PlaneIssue)) (st : SyncState) :
    (update_state mr now true error issues st).error_count = 0 := by
  unfold update_state
  cases issues with
  | none => rfl
  | some is => by_cases h : is.isEmpty <;> simp [h]

/-- C6: every `_update_state` call preserves `error_count ≤ max_retries`; a
failing call increments the counter exactly when it is strictly below the
ceiling and leaves it unchanged at the ceiling; and four consecutive failing
calls starting from a zero counter with `max_retries = 3` end with the
counter at 3. -/
theorem update_state_error_count_invariant (mr : Nat) (now : PyDateTime) (success : Bool)
    (error : Option String) (issues : Option (List PlaneIssue)) (st : SyncState)
    (h : st.error_count ≤ mr) :
    (update_state mr now success error issues st).error_count ≤ mr ∧
    (success = false →
      (st.error_count < mr →
        (update_state mr now success error issues st).error_count = st.error_count + 1) ∧
      (mr ≤ st.error_count →
        (update_state mr now success error issues st).error_count = st.error_count)) ∧
    (∀ st0 : SyncState, st0.error_count = 0 →
      ∀ n1 n2 n3 n4 : PyDateTime, ∀ e1 e2 e3 e4 : Option String,
        (update_state 3 n4 false e4 none (update_state 3 n3 false e3 none
          (update_state 3 n2 false e2 none
            (update_state 3 n1 false e1 none st0)))).error_count = 3) := by
  refine ⟨?_, ?_, ?_⟩
  · cases success
    · rw [update_state_fail_error_count]
      split_ifs <;> omega
    · rw [update_state_succ_error_count]
      exact Nat.zero_le mr
  · intro hs
    subst hs
    refine ⟨fun hlt => ?_, fun hge => ?_⟩
    · rw [update_state_fail_error_count, if_pos hlt]
    · rw [update_state_fail_error_count, if_neg (by omega)]
  · intro st0 h0 n1 n2 n3 n4 e1 e2 e3 e4
    simp only [update_state_fail_error_count, h0]
    norm_num

/-- C6 witness at a concrete input. -/
theorem update_state_error_count_invariant_witness :
    (update_state 3 nowC1 false (some "boom") none stNotDue).error_count ≤ 3 :=
  (update_state_error_count_invariant 3 nowC1 false (some "boom") none stNotDue
    (by decide)).1

/-- C1 (code evaluated at the failing input): with a persisted record that is
not due (last sync today at 9, now 10, notification hour 8) and `force` false,
`sync` nonetheless fetches the states and the issues, persists, and changes
the state — the body of `sync` never consults `force` or `_should_sync`. -/
theorem sync_not_due_unforced_still_fetches :
    should_sync 8 nowC1 stNotDue = false ∧
    (sync 3 envNominal nowC1 false stNotDue).fetched_states = true ∧
    (sync 3 envNominal nowC1 false stNotDue).fetched_issues = true ∧
    (sync 3 envNominal nowC1 false stNotDue).saved = true ∧
    (sync 3 envNominal nowC1 false stNotDue).state ≠ stNotDue := by
  refine ⟨rfl, rfl, rfl, rfl, ?_⟩
  decide

/-- C2: whenever the state fetch returns a non-empty list and the issue fetch
succeeds, the call `format_issues(issues, states)` raises a `TypeError`
(two arguments against one parameter), so the attempt lands in the error
branch: the persisted record has status "error" and nothing is sent. -/
theorem sync_format_arity_error (mr : Nat) (env : SyncEnv) (now : PyDateTime) (force : Bool)
    (st : SyncState) (states : List PlaneState) (issues : List PlaneIssue)
    (hs : env.get_states = Except.ok states) (hne : states ≠ [])
    (hi : env.get_issues = Except.ok issues) :
    (sync mr env now force st).state.last_sync_status = "error" ∧
    (sync mr env now force st).sent = none ∧
    (sync mr env now force st).saved = true := by
  unfold sync
  rw [hs, hi]
  cases states with
  | nil => exact absurd rfl hne
  | cons a l => simp [call_format_issues, format_issues_paramCount, update_state]

/-- C2 witness at a concrete input. -/
theorem sync_format_arity_error_witness :
    (sync 3 envNominal nowC1 true stNotDue).state.last_sync_status = "error" ∧
    (sync 3 envNominal nowC1 true stNotDue).sent = none ∧
    (sync 3 envNominal nowC1 true stNotDue).saved = true :=
  sync_format_arity_error 3 envNominal nowC1 true stNotDue [stateEnCours] [issueB] rfl
    (List.cons_ne_nil _ _) rfl

/-- C7: when the issue fetch raises, the persisted record has status "error",
the error counter incremented exactly when below the ceiling, the last error
set to the raised message, the last-sync stamp set to now, the previously
recorded issue ids untouched, and nothing is sent. -/
theorem sync_issue_fetch_error_effects (mr : Nat) (env : SyncEnv) (now : PyDateTime)
    (force : Bool) (st : SyncState) (states : List PlaneState) (msg : String)
    (hs : env.get_states = Except.ok states) (hne : states ≠ [])
    (hi : env.get_issues = Except.error msg) :
    (sync mr env now force st).state.last_sync_status = "error" ∧
    (sync mr env now force st).state.error_count =
      (if st.error_count < mr then st.error_count + 1 else st.error_count) ∧
    (sync mr env now force st).state.last_error = some msg ∧
    (sync mr env now force st).state.last_sync = some now ∧
    (sync mr env now force st).state.last_issues = st.last_issues ∧
    (sync mr env now force st).sent = none ∧
    (sync mr env now force st).saved = true := by
  unfold sync
  rw [hs, hi]
  cases states with
  | nil => exact absurd rfl hne
  | cons a l => simp [update_state]

/-- C7 witness at a concrete input. -/
theorem sync_issue_fetch_error_effects_witness :
    (sync 3 envIssueError nowC1 true stNotDue).state.last_sync_status = "error" ∧
    (sync 3 envIssueError nowC1 true stNotDue).state.error_count =
      (if stNotDue.error_count < 3 then stNotDue.error_count + 1 else stNotDue.error_count) ∧
    (sync 3 envIssueError nowC1 true stNotDue).state.last_error = some "Connection refused" ∧
    (sync 3 envIssueError nowC1 true stNotDue).state.last_sync = some nowC1 ∧
    (sync 3 envIssueError nowC1 true stNotDue).state.last_issues = stNotDue.last_issues ∧
    (sync 3 envIssueError nowC1 true stNotDue).sent = none ∧
    (sync 3 envIssueError nowC1 true stNotDue).saved = true :=
  sync_issue_fetch_error_effects 3 envIssueError nowC1 true stNotDue [stateEnCours]
    "Connection refused" rfl (List.cons_ne_nil _ _) rfl

/-- C8: when the state fetch returns an empty list, `sync` returns with the
state untouched and unsaved, without fetching issues and without sending,
closing the client on the way out. -/
theorem sync_empty_states_noop (mr : Nat) (env : SyncEnv) (now : PyDateTime) (force : Bool)
    (st : SyncState) (h : env.get_states = Except.ok []) :
    sync mr env now force st =
      { state := st, saved := false, fetched_states := true, fetched_issues := false
        sent := none, closed := true } := by
  unfold sync
  rw [h]
  rfl

/-- C8 witness at a concrete input. -/
theorem sync_empty_states_noop_witness :
    sync 3 envEmptyStates nowC1 true stNotDue =
      { state := stNotDue, saved := false, fetched_states := true, fetched_issues := false
        sent := none, closed := true } :=
  sync_empty_states_noop 3 envEmptyStates nowC1 true stNotDue rfl

/-- C9 (counterexample): an executed attempt whose state fetch returns the
empty list does not write the state file, contradicting the claim that every
executed attempt persists. -/
theorem sync_empty_states_not_persisted :
    (sync 3 envEmptyStates nowC1 true stNotDue).saved = false := rfl

/-- C9 (amended): an attempt persists the resulting state exactly when the
state fetch does not return the empty list; both the empty-states no-op and
a (hypothetical) not-due no-op skip persisting. -/
theorem sync_persists_unless_empty_states (mr : Nat) (env : SyncEnv) (now : PyDateTime)
    (force : Bool) (st : SyncState) :
    (sync mr env now force st).saved = false ↔ env.get_states = Except.ok [] := by
  unfold sync
  cases hs : env.get_states with
  | error e => simp
  | ok states =>
    cases states with
    | nil => simp
    | cons a l =>
      cases hi : env.get_issues with
      | error e => simp
      | ok issues => simp [call_format_issues, format_issues_paramCount]
